import Mathlib

/-!
# Verification of the `devweb1` amortization engine

Shallow embedding, over the exact rationals `ℚ`, of the financial functions of
the two "Tabela Price" calculator variants:

* `src/desconto-racional/main.js` (the primary variant), and
* the unnamed variants (`part_000`, `part_001`).

JavaScript numbers are modelled as rationals; a JS arithmetic result that is
not a finite number (`NaN` or `±Infinity`, both of which arise only from a
division whose denominator is zero in the expressions below) is modelled as
`none : Option ℚ` via `jsdiv`.  `Math.pow(x, n)` with a nonnegative integral
exponent is `x ^ n`, and `Math.pow(x, -n)` (used only as
`Math.pow(1 + t, -p)`) is `(x ^ n)⁻¹`.
-/

/-- JS division `a / b` restricted to finite results: `none` models the
non-finite outcomes (`NaN` when `a = 0`, `±Infinity` otherwise). -/
def jsdiv (a b : ℚ) : Option ℚ :=
  if b = 0 then none else some (a / b)

/-- Function `Calcular_PrestacaoMensal` from `main.js` lines 155-158 (identical in
`part_001` lines 1-4): `prestacao = (valorFinanciado * t) / (1 - Math.pow(1 + t, -p))`,
with the non-finite case of the division tracked by `jsdiv`. -/
def Calcular_PrestacaoMensal (valorFinanciado t : ℚ) (p : ℕ) : Option ℚ :=
  jsdiv (valorFinanciado * t) (1 - ((1 + t) ^ p)⁻¹)

/-- The same annuity expression as a total function on `ℚ` (the value of
`Calcular_PrestacaoMensal` whenever its denominator is nonzero); used inside
the schedule loop, which reads the already-computed `prestacao` variable. -/
def prestacaoMensal (valorFinanciado t : ℚ) (p : ℕ) : ℚ :=
  valorFinanciado * t / (1 - ((1 + t) ^ p)⁻¹)

/-- On a nonzero denominator the checked and the total annuity payment agree. -/
lemma Calcular_PrestacaoMensal_eq_some (v t : ℚ) (p : ℕ)
    (h : 1 - ((1 + t) ^ p)⁻¹ ≠ 0) :
    Calcular_PrestacaoMensal v t p = some (prestacaoMensal v t p) := by
  simp [Calcular_PrestacaoMensal, jsdiv, h, prestacaoMensal]

/-- Function `Calcular_CoeficienteFinanciamento` from `main.js` lines 160-163:
`CF = (t * Math.pow(1 + t, p)) / (Math.pow(1 + t, p) - 1)`. -/
def Calcular_CoeficienteFinanciamento (t : ℚ) (p : ℕ) : Option ℚ :=
  jsdiv (t * (1 + t) ^ p) ((1 + t) ^ p - 1)

/-- Function `Calcular_ValorPago` from `main.js` lines 165-169:
`valor_pago = Calcular_PrestacaoMensal(valorFinanciado, t, p) * p`. -/
def Calcular_ValorPago (valorFinanciado t : ℚ) (p : ℕ) : Option ℚ :=
  (Calcular_PrestacaoMensal valorFinanciado t p).map (fun x => x * p)

/-- Function `Calcular_ValorCorrigido` from `main.js` lines 190-193:
`valorCorrigido = valorPago / Math.pow(1 + t, p)`. -/
def Calcular_ValorCorrigido (valorPago t : ℚ) (p : ℕ) : Option ℚ :=
  jsdiv valorPago ((1 + t) ^ p)

/-- The convergence precision `precisao = 0.000001` of
`Calcular_TaxaReal_MetodoNewton`. -/
def precisao : ℚ := 1 / 1000000

/-- The Newton-Raphson loop shared by both variants of
`Calcular_TaxaReal_MetodoNewton` (`main.js` lines 171-185, `part_001` lines
17-32).  State: current `estimativa`, current `erro`, and the iteration
counter `iteracoes` (`n`).  Each loop pass updates
`estimativa -= erro / ((p * valorPago) / Math.pow(1 + estimativa, p + 1))`,
recomputes `erro = valorFinanciado - valorPago / Math.pow(1 + estimativa, p)`,
increments the counter, and returns `null` (here `none`) once the counter
exceeds 1000.  The first component of the result is the converged
`estimativa` (the two variants differ only in what the line after the loop
makes of it), the second is the final value of `iteracoes`.

The loop body can run at most 1001 times, so the extra `fuel` argument, kept
equal to `1001 - n`, makes the recursion structural; the `fuel = 0` branch is
unreachable from the entry point `fuel = 1001, n = 0`. -/
def newtonLoop (p : ℕ) (valorFinanciado valorPago : ℚ) :
    ℕ → ℚ → ℚ → ℕ → Option ℚ × ℕ
  | 0, est, _, n => (some est, n)
  | fuel + 1, est, erro, n =>
    if |erro| ≤ precisao then (some est, n)
    else
      let est2 := est - erro / (((p : ℚ) * valorPago) / (1 + est) ^ (p + 1))
      let erro2 := valorFinanciado - valorPago / (1 + est2) ^ p
      if n + 1 > 1000 then (none, n + 1)
      else newtonLoop p valorFinanciado valorPago fuel est2 erro2 (n + 1)

/-- The initial `erro` of the Newton loop, for `estimativa = 0.1`:
`erro = valorFinanciado - (valorPago / Math.pow(1 + estimativa, p))`. -/
def erroInicial (valorFinanciado valorPago : ℚ) (p : ℕ) : ℚ :=
  valorFinanciado - valorPago / (1 + 1 / 10) ^ p

/-- Function `Calcular_TaxaReal_MetodoNewton` from `main.js` lines 171-188: runs the
Newton loop from `estimativa = 0.1` and, on convergence, returns
`treal = estimativa * 100` (the comment in the source reads
"Converta para porcentagem"); `none` is the `null` no-convergence result. -/
def Calcular_TaxaReal_MetodoNewton (valorFinanciado : ℚ) (p : ℕ)
    (valorPago : ℚ) : Option ℚ :=
  ((newtonLoop p valorFinanciado valorPago 1001 (1 / 10)
      (erroInicial valorFinanciado valorPago p) 0).1).map (fun e => e * 100)

/-- The `part_001` variant (lines 17-35) of the same function: identical loop,
but on convergence it discards the estimate and returns the constant
`treal = 3.8956`. -/
def Calcular_TaxaReal_part001 (valorFinanciado : ℚ) (p : ℕ)
    (valorPago : ℚ) : Option ℚ :=
  ((newtonLoop p valorFinanciado valorPago 1001 (1 / 10)
      (erroInicial valorFinanciado valorPago p) 0).1).map (fun _ => 38956 / 10000)

/-- The final value of the `iteracoes` counter of
`Calcular_TaxaReal_MetodoNewton` (number of loop-body executions). -/
def TaxaReal_iteracoes (valorFinanciado : ℚ) (p : ℕ) (valorPago : ℚ) : ℕ :=
  (newtonLoop p valorFinanciado valorPago 1001 (1 / 10)
      (erroInicial valorFinanciado valorPago p) 0).2

/-- One row of the Tabela Price as rendered by the schedule loops:
month index, payment, interest, amortization, remaining balance. -/
structure Linha where
  mes : ℕ
  prestacao : ℚ
  juros : ℚ
  amortizacao : ℚ
  saldoDevedor : ℚ
  deriving DecidableEq, Repr

/-- The schedule loop of `main.js` lines 107-134 (no down payment, i.e. the
checkbox branch at lines 96-105 not taken): running balance
`valorFinanciado`; each pass computes `juros = valorFinanciado * t`,
`amortizacao = prestacao - juros`, `saldoDevedor = valorFinanciado - amortizacao`,
stores the row, and continues with the new balance.  `fuel` is the number of
remaining passes (`p - i + 1` in the source), `i` the month index. -/
def tabelaPriceAux (prestacao t : ℚ) : ℚ → ℕ → ℕ → List Linha
  | _, _, 0 => []
  | bal, i, fuel + 1 =>
    let juros := bal * t
    let amortizacao := prestacao - juros
    let saldoDevedor := bal - amortizacao
    ⟨i, prestacao, juros, amortizacao, saldoDevedor⟩ ::
      tabelaPriceAux prestacao t saldoDevedor (i + 1) fuel

/-- The full `main.js` schedule (months `1..p`), with the constant payment
taken from `Calcular_PrestacaoMensal` exactly as the source does at line 11. -/
def tabelaPrice (valorFinanciado t : ℚ) (p : ℕ) : List Linha :=
  tabelaPriceAux (prestacaoMensal valorFinanciado t p) t valorFinanciado 1 p

/-- Constant `NUMERO_DE_REPETICOES` from `part_000` line 2. -/
def NUMERO_DE_REPETICOES : ℕ := 96

/-- The loop body of `calcularTabelaAmortizacao` from `part_000` lines 5-25:
note that, unlike the `main.js` loop, the row stores the balance *before*
this month's amortization is subtracted, and the month count is the
constant `NUMERO_DE_REPETICOES`, not `p`. -/
def calcularTabelaAmortizacaoAux (prestacao t : ℚ) : ℚ → ℕ → ℕ → List Linha
  | _, _, 0 => []
  | saldoDevedor, mes, fuel + 1 =>
    let juros := saldoDevedor * t
    let amortizacao := prestacao - juros
    ⟨mes, prestacao, juros, amortizacao, saldoDevedor⟩ ::
      calcularTabelaAmortizacaoAux prestacao t (saldoDevedor - amortizacao)
        (mes + 1) fuel

/-- Function `calcularTabelaAmortizacao(valorFinanciado, t, p)` from `part_000`:
iterates `mes = 1 .. NUMERO_DE_REPETICOES` regardless of `p`; `p` is used
only inside the payment formula. -/
def calcularTabelaAmortizacao (valorFinanciado t : ℚ) (p : ℕ) : List Linha :=
  calcularTabelaAmortizacaoAux (prestacaoMensal valorFinanciado t p) t
    valorFinanciado 1 NUMERO_DE_REPETICOES

/-- Exiting the Newton loop: the guard `Math.abs(erro) > precisao` fails, so
the loop returns the current estimate and counter. -/
lemma newtonLoop_done (p : ℕ) (v paid : ℚ) (fuel : ℕ) (est erro : ℚ) (n : ℕ)
    (h : |erro| ≤ precisao) :
    newtonLoop p v paid (fuel + 1) est erro n = (some est, n) := by
  rw [newtonLoop]
  simp [h]

/-- One pass of the Newton loop body, when the guard holds and the iteration
cap is not yet hit. -/
lemma newtonLoop_go (p : ℕ) (v paid : ℚ) (fuel : ℕ) (est erro : ℚ) (n : ℕ)
    (h : ¬ |erro| ≤ precisao) (hn : ¬ n + 1 > 1000) :
    newtonLoop p v paid (fuel + 1) est erro n =
      newtonLoop p v paid fuel
        (est - erro / (((p : ℚ) * paid) / (1 + est) ^ (p + 1)))
        (v - paid / (1 + (est - erro / (((p : ℚ) * paid) / (1 + est) ^ (p + 1)))) ^ p)
        (n + 1) := by
  rw [newtonLoop]
  simp only [if_neg h, if_neg hn]

/-- Hitting the iteration cap: the guard holds and the incremented counter
exceeds 1000, so the loop returns `null`. -/
lemma newtonLoop_cap (p : ℕ) (v paid : ℚ) (fuel : ℕ) (est erro : ℚ) (n : ℕ)
    (h : ¬ |erro| ≤ precisao) (hn : n + 1 > 1000) :
    newtonLoop p v paid (fuel + 1) est erro n = (none, n + 1) := by
  rw [newtonLoop]
  simp only [if_neg h, if_pos hn]

/-- The `part_000` schedule always has `NUMERO_DE_REPETICOES` rows, whatever
the balance and starting month. -/
lemma calcularTabelaAmortizacaoAux_length (P t : ℚ) :
    ∀ (fuel : ℕ) (saldo : ℚ) (mes : ℕ),
      (calcularTabelaAmortizacaoAux P t saldo mes fuel).length = fuel := by
  intro fuel
  induction fuel with
  | zero => intro saldo mes; rfl
  | succ f ih =>
    intro saldo mes
    simp [calcularTabelaAmortizacaoAux, ih]

/-- The `main.js` schedule loop emits one row per remaining pass. -/
lemma tabelaPriceAux_length (P t : ℚ) :
    ∀ (fuel : ℕ) (bal : ℚ) (i : ℕ),
      (tabelaPriceAux P t bal i fuel).length = fuel := by
  intro fuel
  induction fuel with
  | zero => intro bal i; rfl
  | succ f ih =>
    intro bal i
    simp [tabelaPriceAux, ih]

/-- The `main.js` inline schedule (without down payment) does produce
exactly `p` rows — the hard-coded count is specific to `part_000`. -/
lemma tabelaPrice_length (v t : ℚ) (p : ℕ) : (tabelaPrice v t p).length = p :=
  tabelaPriceAux_length _ _ _ _ _

/-- C3: the claim says the schedule row count is always the caller-supplied
`periods` and never a module-level constant; but `calcularTabelaAmortizacao`
from `part_000` iterates `mes = 1 .. NUMERO_DE_REPETICOES = 96` regardless of
`p`, so for `p = 12` it emits 96 rows, not 12. -/
theorem C3_hardcoded_row_count :
    ∀ v t : ℚ, (calcularTabelaAmortizacao v t 12).length = NUMERO_DE_REPETICOES ∧
      (calcularTabelaAmortizacao v t 12).length ≠ 12 := by
  intro v t
  rw [calcularTabelaAmortizacao, calcularTabelaAmortizacaoAux_length]
  refine ⟨rfl, by norm_num [NUMERO_DE_REPETICOES]⟩

/-- C1: `Calcular_PrestacaoMensal` has no zero-rate guard: at
`rate = 0` the source computes `(1000 * 0) / (1 - Math.pow(1, -12)) = 0 / 0`,
which is `NaN` (modelled `none`), not the claimed `principal / periods`. -/
theorem C1_zero_rate_unguarded :
    Calcular_PrestacaoMensal 1000 0 12 = none ∧
      Calcular_PrestacaoMensal 1000 0 12 ≠ some (1000 / 12) := by
  have h : Calcular_PrestacaoMensal 1000 0 12 = none := by
    norm_num [Calcular_PrestacaoMensal, jsdiv]
  exact ⟨h, by simp [h]⟩

/-- C2: on the converging input `valorFinanciado = 100`, `p = 1`,
`valorPago = 110` (true periodic rate `1/10`), the `main.js` variant returns
`estimativa * 100 = 10` — the rate multiplied by 100, not the fraction
`1/10` — and the `part_001` variant returns the input-independent constant
`3.8956` on every converging input. -/
theorem C2_engine_scales_or_hardcodes_rate :
    Calcular_TaxaReal_MetodoNewton 100 1 110 = some 10 ∧
      (10 : ℚ) ≠ 1 / 10 ∧
      Calcular_TaxaReal_part001 100 1 110 = some (38956 / 10000) ∧
      Calcular_TaxaReal_part001 200 1 220 = some (38956 / 10000) := by
  have h0 : erroInicial 100 110 1 = 0 := by norm_num [erroInicial]
  have h0b : erroInicial 200 220 1 = 0 := by norm_num [erroInicial]
  have hp : |(0 : ℚ)| ≤ precisao := by norm_num [precisao]
  refine ⟨?_, by norm_num, ?_, ?_⟩
  · rw [Calcular_TaxaReal_MetodoNewton, show (1001 : ℕ) = 1000 + 1 from rfl, h0,
      newtonLoop_done 1 100 110 1000 (1 / 10) 0 0 hp]
    norm_num
  · rw [Calcular_TaxaReal_part001, show (1001 : ℕ) = 1000 + 1 from rfl, h0,
      newtonLoop_done 1 100 110 1000 (1 / 10) 0 0 hp]
    rfl
  · rw [Calcular_TaxaReal_part001, show (1001 : ℕ) = 1000 + 1 from rfl, h0b,
      newtonLoop_done 1 200 220 1000 (1 / 10) 0 0 hp]
    rfl

/-- C8: the round-trip `computeEffectiveRate(p, n, computeTotalPaid(p, r, n))`
does not return a value within `1e-6` of `r`: for `principal = 100`,
`rate = 1/10`, `periods = 1` the total paid is `110`, and the engine returns
`10` (the rate times 100), which is not within `1e-6` of `1/10`. -/
theorem C8_roundtrip_off_by_factor_100 :
    Calcular_ValorPago 100 (1 / 10) 1 = some 110 ∧
      Calcular_TaxaReal_MetodoNewton 100 1 110 = some 10 ∧
      ¬ |(10 : ℚ) - 1 / 10| ≤ 1 / 1000000 := by
  have h0 : erroInicial 100 110 1 = 0 := by norm_num [erroInicial]
  have habs : |(10 : ℚ) - 1 / 10| = 99 / 10 := by
    rw [show (10 : ℚ) - 1 / 10 = 99 / 10 by norm_num, abs_of_pos (by norm_num)]
  refine ⟨?_, ?_, by rw [habs]; norm_num⟩
  · norm_num [Calcular_ValorPago, Calcular_PrestacaoMensal, jsdiv]
  · rw [Calcular_TaxaReal_MetodoNewton, show (1001 : ℕ) = 1000 + 1 from rfl, h0,
      newtonLoop_done 1 100 110 1000 (1 / 10) 0 0 (by norm_num [precisao])]
    norm_num

/-- The running balance of the `main.js` schedule loop: `saldoSeq P t v k` is
the value of the `valorFinanciado` variable after `k` passes of the loop with
constant payment `P`, rate `t` and initial balance `v`. -/
def saldoSeq (P t v : ℚ) : ℕ → ℚ
  | 0 => v
  | k + 1 => saldoSeq P t v k - (P - saldoSeq P t v k * t)

lemma saldoSeq_succ (P t v : ℚ) (k : ℕ) :
    saldoSeq P t v (k + 1) = saldoSeq P t v k - (P - saldoSeq P t v k * t) :=
  rfl

lemma saldoSeq_shift (P t v : ℚ) :
    ∀ k, saldoSeq P t (v - (P - v * t)) k = saldoSeq P t v (k + 1) := by
  intro k
  induction k with
  | zero => simp [saldoSeq]
  | succ k ih => simp only [saldoSeq, ih]

/-- Row `k` (0-based) of the schedule loop, in terms of the running balance:
interest on `saldoSeq k`, amortization is payment minus that interest, and the
stored balance is `saldoSeq (k+1)` (the balance after the payment). -/
lemma tabelaPriceAux_getElem (P t : ℚ) :
    ∀ (fuel : ℕ) (b : ℚ) (i k : ℕ), k < fuel →
      (tabelaPriceAux P t b i fuel)[k]? =
        some ⟨i + k, P, saldoSeq P t b k * t, P - saldoSeq P t b k * t,
          saldoSeq P t b (k + 1)⟩ := by
  intro fuel
  induction fuel with
  | zero => intro b i k hk; exact absurd hk (Nat.not_lt_zero k)
  | succ f ih =>
    intro b i k hk
    cases k with
    | zero =>
      simp only [tabelaPriceAux, List.getElem?_cons_zero, Option.some.injEq]
      simp [saldoSeq]
    | succ k2 =>
      simp only [tabelaPriceAux, List.getElem?_cons_succ]
      rw [ih _ (i + 1) k2 (by omega), saldoSeq_shift, saldoSeq_shift,
        show i + 1 + k2 = i + (k2 + 1) by omega]

/-- Closed form of the running balance. -/
lemma saldoSeq_closed (P t v : ℚ) (ht : t ≠ 0) :
    ∀ k, saldoSeq P t v k = v * (1 + t) ^ k - P * ((1 + t) ^ k - 1) / t := by
  intro k
  induction k with
  | zero => simp [saldoSeq]
  | succ k ih =>
    show saldoSeq P t v k - (P - saldoSeq P t v k * t) = _
    rw [ih, pow_succ]
    field_simp
    ring

/-- The denominator of the annuity formula lies in `(0, 1)` for a positive
rate and at least one period. -/
lemma denom_bounds (t : ℚ) (p : ℕ) (ht0 : 0 < t) (hp : 1 ≤ p) :
    0 < 1 - ((1 + t) ^ p)⁻¹ ∧ 1 - ((1 + t) ^ p)⁻¹ < 1 := by
  have hu1 : 1 < (1 + t) ^ p := one_lt_pow₀ (by linarith) (by omega)
  have hu0 : (0 : ℚ) < (1 + t) ^ p := by linarith
  constructor
  · have : ((1 + t) ^ p)⁻¹ < 1 := (inv_lt_one₀ hu0).mpr hu1
    linarith
  · have : 0 < ((1 + t) ^ p)⁻¹ := by positivity
    linarith

/-- The payment exceeds the first period's interest. -/
lemma prestacao_gt_interest (v t : ℚ) (p : ℕ)
    (hv : 0 < v) (ht0 : 0 < t) (hp : 1 ≤ p) :
    0 < prestacaoMensal v t p - t * v := by
  obtain ⟨hd0, hd1⟩ := denom_bounds t p ht0 hp
  have hu0 : (0 : ℚ) < (1 + t) ^ p := by positivity
  have hu1 : 1 < (1 + t) ^ p := one_lt_pow₀ (by linarith) (by omega)
  have hne1 : (1 + t) ^ p - 1 ≠ 0 := sub_ne_zero.mpr (ne_of_gt hu1)
  have key : prestacaoMensal v t p - t * v =
      t * v * ((1 + t) ^ p)⁻¹ / (1 - ((1 + t) ^ p)⁻¹) := by
    rw [prestacaoMensal]
    field_simp [hne1]
    ring
  rw [key]
  positivity

/-- Each period's amortization is positive: `P - t * saldoSeq k > 0`
propagates because it gets multiplied by `1 + t > 0` at each step. -/
lemma amortizacao_pos (v t : ℚ) (p : ℕ)
    (hv : 0 < v) (ht0 : 0 < t) (hp : 1 ≤ p) :
    ∀ k, 0 < prestacaoMensal v t p - t * saldoSeq (prestacaoMensal v t p) t v k := by
  intro k
  induction k with
  | zero => exact prestacao_gt_interest v t p hv ht0 hp
  | succ k ih =>
    have step : prestacaoMensal v t p -
        t * saldoSeq (prestacaoMensal v t p) t v (k + 1) =
        (prestacaoMensal v t p -
          t * saldoSeq (prestacaoMensal v t p) t v k) * (1 + t) := by
      simp only [saldoSeq]
      ring
    rw [step]
    exact mul_pos ih (by linarith)

/-- The balance is exactly zero after the `p`-th payment. -/
lemma saldoSeq_final (v t : ℚ) (p : ℕ) (ht0 : 0 < t) (hp : 1 ≤ p) :
    saldoSeq (prestacaoMensal v t p) t v p = 0 := by
  obtain ⟨hd0, _⟩ := denom_bounds t p ht0 hp
  have hu0 : (0 : ℚ) < (1 + t) ^ p := by positivity
  have hu1 : 1 < (1 + t) ^ p := one_lt_pow₀ (by linarith) (by omega)
  have hne1 : (1 + t) ^ p - 1 ≠ 0 := sub_ne_zero.mpr (ne_of_gt hu1)
  rw [saldoSeq_closed _ _ _ (ne_of_gt ht0), prestacaoMensal]
  field_simp [hne1]
  ring

/-- Every row of the `main.js` loop satisfies the price decomposition
`prestacao = juros + amortizacao` exactly. -/
lemma tabelaPriceAux_decomposition (P t : ℚ) :
    ∀ (fuel : ℕ) (b : ℚ) (i : ℕ), ∀ r ∈ tabelaPriceAux P t b i fuel,
      r.prestacao = r.juros + r.amortizacao := by
  intro fuel
  induction fuel with
  | zero => intro b i r hr; simp [tabelaPriceAux] at hr
  | succ f ih =>
    intro b i r hr
    simp only [tabelaPriceAux, List.mem_cons] at hr
    rcases hr with rfl | hr
    · show P = b * t + (P - b * t)
      ring
    · exact ih _ _ r hr

/-- Row `k` (0-based) of the `part_000` loop, in terms of the running
balance: the balance update recurrence is the same as in `main.js`, but the
stored `saldoDevedor` is `saldoSeq k` — the balance *before* this month's
amortization is subtracted (the push happens before
`saldoDevedor -= amortizacao`). -/
lemma calcularTabelaAmortizacaoAux_getElem (P t : ℚ) :
    ∀ (fuel : ℕ) (b : ℚ) (mes k : ℕ), k < fuel →
      (calcularTabelaAmortizacaoAux P t b mes fuel)[k]? =
        some ⟨mes + k, P, saldoSeq P t b k * t, P - saldoSeq P t b k * t,
          saldoSeq P t b k⟩ := by
  intro fuel
  induction fuel with
  | zero => intro b mes k hk; exact absurd hk (Nat.not_lt_zero k)
  | succ f ih =>
    intro b mes k hk
    cases k with
    | zero =>
      simp only [calcularTabelaAmortizacaoAux, List.getElem?_cons_zero,
        Option.some.injEq]
      simp [saldoSeq]
    | succ k2 =>
      simp only [calcularTabelaAmortizacaoAux, List.getElem?_cons_succ]
      rw [ih _ (mes + 1) k2 (by omega), saldoSeq_shift,
        show mes + 1 + k2 = mes + (k2 + 1) by omega]

/-- Every row of the `part_000` loop also satisfies the price decomposition
`prestacao = juros + amortizacao` exactly. -/
lemma calcularTabelaAmortizacaoAux_decomposition (P t : ℚ) :
    ∀ (fuel : ℕ) (b : ℚ) (mes : ℕ),
      ∀ r ∈ calcularTabelaAmortizacaoAux P t b mes fuel,
        r.prestacao = r.juros + r.amortizacao := by
  intro fuel
  induction fuel with
  | zero => intro b mes r hr; simp [calcularTabelaAmortizacaoAux] at hr
  | succ f ih =>
    intro b mes r hr
    simp only [calcularTabelaAmortizacaoAux, List.mem_cons] at hr
    rcases hr with rfl | hr
    · show P = b * t + (P - b * t)
      ring
    · exact ih _ _ r hr

/-- C4 (counterexample): at `principal = 100`, `rate = 1/2`, `periods = 1` —
inside the claim's domain — the first row of `part_000`'s
`calcularTabelaAmortizacao` stores `saldoDevedor = 100`, the balance
*before* that period's amortization of 100, not the running balance after it
(`100 - 100 = 0`), refuting the claim for this cited implementation. -/
theorem C4_counterexample_prepayment_balance :
    (0 : ℚ) < 100 ∧ (0 : ℚ) < 1 / 2 ∧ (1 / 2 : ℚ) < 1 ∧ (1 ≤ 1) ∧
    (calcularTabelaAmortizacao 100 (1 / 2) 1).head? =
      some ⟨1, 150, 50, 100, 100⟩ ∧
    (⟨1, 150, 50, 100, 100⟩ : Linha).saldoDevedor ≠
      100 - (⟨1, 150, 50, 100, 100⟩ : Linha).amortizacao := by
  have hP : prestacaoMensal 100 (1 / 2) 1 = 150 := by
    norm_num [prestacaoMensal]
  refine ⟨by norm_num, by norm_num, by norm_num, by norm_num, ?_, by norm_num⟩
  rw [List.head?_eq_getElem?, calcularTabelaAmortizacao,
    calcularTabelaAmortizacaoAux_getElem _ _ _ _ _ _
      (by norm_num [NUMERO_DE_REPETICOES] : 0 < NUMERO_DE_REPETICOES), hP]
  simp [saldoSeq]
  norm_num

/-- C4 (amended): for `principal > 0`, `0 < rate < 1`, `periods ≥ 1`:

In the `main.js` loop every row has
`paymentAmount = interestPortion + principalPortion` exactly, each row's
balance is the running balance after that period's amortization (the first
row's is the principal minus its amortization, each later row's is the
previous balance minus that row's amortization), balances strictly decrease,
and the final balance is within `1e-2` of zero (exactly zero in exact
arithmetic).

In the `part_000` variant the decomposition also holds and the stored
balances also strictly decrease, but each row's `saldoDevedor` is instead
the running balance *before* that period's amortization: the first row
stores the untouched principal, the next row stores this row's balance minus
*this* row's amortization, and even with the matching period count
`p = 96` the final row stores one discounted payment,
`prestacaoMensal / (1 + rate)`, above zero rather than approximately zero. -/
theorem C4_amended_schedule_invariants (v t : ℚ) (p : ℕ)
    (hv : 0 < v) (ht0 : 0 < t) (ht1 : t < 1) (hp : 1 ≤ p) :
    (∀ r ∈ tabelaPrice v t p, r.prestacao = r.juros + r.amortizacao) ∧
    (∀ r, (tabelaPrice v t p).head? = some r →
      r.saldoDevedor = v - r.amortizacao) ∧
    (∀ (k : ℕ) (r s : Linha), (tabelaPrice v t p)[k]? = some r →
      (tabelaPrice v t p)[k + 1]? = some s →
      s.saldoDevedor = r.saldoDevedor - s.amortizacao ∧
        s.saldoDevedor < r.saldoDevedor) ∧
    (∀ r, (tabelaPrice v t p).getLast? = some r →
      |r.saldoDevedor| ≤ 1 / 100) ∧
    (∀ r ∈ calcularTabelaAmortizacao v t p,
      r.prestacao = r.juros + r.amortizacao) ∧
    (∀ r, (calcularTabelaAmortizacao v t p).head? = some r →
      r.saldoDevedor = v) ∧
    (∀ (k : ℕ) (r s : Linha), (calcularTabelaAmortizacao v t p)[k]? = some r →
      (calcularTabelaAmortizacao v t p)[k + 1]? = some s →
      s.saldoDevedor = r.saldoDevedor - r.amortizacao ∧
        s.saldoDevedor < r.saldoDevedor) ∧
    (∀ r, (calcularTabelaAmortizacao v t 96).getLast? = some r →
      r.saldoDevedor = prestacaoMensal v t 96 / (1 + t)) := by
  have hlen : (tabelaPrice v t p).length = p := tabelaPrice_length v t p
  refine ⟨tabelaPriceAux_decomposition _ _ _ _ _, ?_, ?_, ?_,
    calcularTabelaAmortizacaoAux_decomposition _ _ _ _ _, ?_, ?_, ?_⟩
  · intro r hr
    rw [List.head?_eq_getElem?] at hr
    have h0 : 0 < p := by omega
    rw [tabelaPrice, tabelaPriceAux_getElem _ _ _ _ _ _ h0] at hr
    cases Option.some.inj hr
    show saldoSeq (prestacaoMensal v t p) t v 1 = v - _
    simp [saldoSeq]
  · intro k r s hr hs
    have hk1 : k + 1 < p := by
      by_contra hk
      rw [List.getElem?_eq_none (by omega : (tabelaPrice v t p).length ≤ k + 1)] at hs
      exact Option.noConfusion hs
    rw [tabelaPrice, tabelaPriceAux_getElem _ _ _ _ _ _ (by omega : k < p)] at hr
    rw [tabelaPrice, tabelaPriceAux_getElem _ _ _ _ _ _ hk1] at hs
    cases Option.some.inj hr
    cases Option.some.inj hs
    constructor
    · exact saldoSeq_succ _ t v (k + 1)
    · have hpos := amortizacao_pos v t p hv ht0 hp (k + 1)
      show saldoSeq _ t v (k + 1 + 1) < saldoSeq _ t v (k + 1)
      rw [saldoSeq_succ _ t v (k + 1)]
      linarith
  · intro r hr
    rw [List.getLast?_eq_getElem?, hlen] at hr
    rw [tabelaPrice, tabelaPriceAux_getElem _ _ _ _ _ _ (by omega : p - 1 < p)] at hr
    cases Option.some.inj hr
    show |saldoSeq _ t v (p - 1 + 1)| ≤ 1 / 100
    rw [show p - 1 + 1 = p by omega, saldoSeq_final v t p ht0 hp]
    norm_num
  · intro r hr
    rw [List.head?_eq_getElem?, calcularTabelaAmortizacao,
      calcularTabelaAmortizacaoAux_getElem _ _ _ _ _ _
        (by norm_num [NUMERO_DE_REPETICOES] : 0 < NUMERO_DE_REPETICOES)] at hr
    cases Option.some.inj hr
    rfl
  · intro k r s hr hs
    have hlen2 : (calcularTabelaAmortizacao v t p).length = NUMERO_DE_REPETICOES := by
      rw [calcularTabelaAmortizacao, calcularTabelaAmortizacaoAux_length]
    have hk1 : k + 1 < NUMERO_DE_REPETICOES := by
      by_contra hk
      rw [List.getElem?_eq_none
        (by omega : (calcularTabelaAmortizacao v t p).length ≤ k + 1)] at hs
      exact Option.noConfusion hs
    rw [calcularTabelaAmortizacao,
      calcularTabelaAmortizacaoAux_getElem _ _ _ _ _ _
        (by omega : k < NUMERO_DE_REPETICOES)] at hr
    rw [calcularTabelaAmortizacao,
      calcularTabelaAmortizacaoAux_getElem _ _ _ _ _ _ hk1] at hs
    cases Option.some.inj hr
    cases Option.some.inj hs
    constructor
    · exact saldoSeq_succ _ t v k
    · have hpos := amortizacao_pos v t p hv ht0 hp k
      show saldoSeq _ t v (k + 1) < saldoSeq _ t v k
      rw [saldoSeq_succ _ t v k]
      linarith
  · intro r hr
    have hlen3 : (calcularTabelaAmortizacao v t 96).length = NUMERO_DE_REPETICOES := by
      rw [calcularTabelaAmortizacao, calcularTabelaAmortizacaoAux_length]
    rw [List.getLast?_eq_getElem?, hlen3,
      show NUMERO_DE_REPETICOES - 1 = 95 by norm_num [NUMERO_DE_REPETICOES],
      calcularTabelaAmortizacao,
      calcularTabelaAmortizacaoAux_getElem _ _ _ _ _ _
        (by norm_num [NUMERO_DE_REPETICOES] : 95 < NUMERO_DE_REPETICOES)] at hr
    cases Option.some.inj hr
    show saldoSeq (prestacaoMensal v t 96) t v 95 = prestacaoMensal v t 96 / (1 + t)
    have h96 : saldoSeq (prestacaoMensal v t 96) t v 96 = 0 :=
      saldoSeq_final v t 96 ht0 (by norm_num)
    have hsucc := saldoSeq_succ (prestacaoMensal v t 96) t v 95
    have ht1p : (1 + t) ≠ 0 := by linarith
    rw [eq_div_iff ht1p]
    rw [show (95 : ℕ) + 1 = 96 from rfl] at hsucc
    nlinarith [h96, hsucc]

/-- Witness for the amended C4 at `principal = 1000`, `rate = 1/100`,
`periods = 12`. -/
theorem C4_amended_schedule_invariants_witness :
    (0 : ℚ) < 1000 ∧ (0 : ℚ) < 1 / 100 ∧ (1 / 100 : ℚ) < 1 ∧ (1 ≤ 12) ∧
    ((∀ r ∈ tabelaPrice 1000 (1 / 100) 12,
        r.prestacao = r.juros + r.amortizacao) ∧
      (∀ r, (tabelaPrice 1000 (1 / 100) 12).head? = some r →
        r.saldoDevedor = 1000 - r.amortizacao) ∧
      (∀ (k : ℕ) (r s : Linha), (tabelaPrice 1000 (1 / 100) 12)[k]? = some r →
        (tabelaPrice 1000 (1 / 100) 12)[k + 1]? = some s →
        s.saldoDevedor = r.saldoDevedor - s.amortizacao ∧
          s.saldoDevedor < r.saldoDevedor) ∧
      (∀ r, (tabelaPrice 1000 (1 / 100) 12).getLast? = some r →
        |r.saldoDevedor| ≤ 1 / 100) ∧
      (∀ r ∈ calcularTabelaAmortizacao 1000 (1 / 100) 12,
        r.prestacao = r.juros + r.amortizacao) ∧
      (∀ r, (calcularTabelaAmortizacao 1000 (1 / 100) 12).head? = some r →
        r.saldoDevedor = 1000) ∧
      (∀ (k : ℕ) (r s : Linha),
        (calcularTabelaAmortizacao 1000 (1 / 100) 12)[k]? = some r →
        (calcularTabelaAmortizacao 1000 (1 / 100) 12)[k + 1]? = some s →
        s.saldoDevedor = r.saldoDevedor - r.amortizacao ∧
          s.saldoDevedor < r.saldoDevedor) ∧
      (∀ r, (calcularTabelaAmortizacao 1000 (1 / 100) 96).getLast? = some r →
        r.saldoDevedor = prestacaoMensal 1000 (1 / 100) 96 / (1 + 1 / 100))) :=
  ⟨by norm_num, by norm_num, by norm_num, by norm_num,
    C4_amended_schedule_invariants 1000 (1 / 100) 12 (by norm_num) (by norm_num)
      (by norm_num) (by norm_num)⟩

/-- The geometric-sum bound `(1+t)^p - 1 ≤ t * p * (1+t)^p` for `t ≥ 0`. -/
lemma pow_sub_one_le (t : ℚ) (p : ℕ) (ht0 : 0 ≤ t) :
    (1 + t) ^ p - 1 ≤ t * p * (1 + t) ^ p := by
  have hgeom : (∑ i ∈ Finset.range p, (1 + t) ^ i) * ((1 + t) - 1) =
      (1 + t) ^ p - 1 := geom_sum_mul (1 + t) p
  have hsum : (∑ i ∈ Finset.range p, (1 + t) ^ i) ≤ (p : ℚ) * (1 + t) ^ p := by
    calc (∑ i ∈ Finset.range p, (1 + t) ^ i)
        ≤ ∑ _i ∈ Finset.range p, (1 + t) ^ p :=
          Finset.sum_le_sum fun i hi =>
            pow_le_pow_right₀ (by linarith)
              (le_of_lt (Finset.mem_range.mp hi))
      _ = (p : ℚ) * (1 + t) ^ p := by
          rw [Finset.sum_const, Finset.card_range, nsmul_eq_mul]
  have hpos : (0 : ℚ) ≤ (1 + t) ^ p := by positivity
  nlinarith [mul_le_mul_of_nonneg_right hsum ht0]

/-- C9: `Calcular_ValorPago` is the installment times the period count, and
for `principal > 0`, `0 < rate < 1`, `periods ≥ 1` the total paid is at least
the principal. -/
theorem C9_total_paid_ge_principal (v t : ℚ) (p : ℕ)
    (hv : 0 < v) (ht0 : 0 < t) (ht1 : t < 1) (hp : 1 ≤ p) :
    ∃ P, Calcular_PrestacaoMensal v t p = some P ∧
      Calcular_ValorPago v t p = some (P * p) ∧ v ≤ P * p := by
  obtain ⟨hd0, hd1⟩ := denom_bounds t p ht0 hp
  have hd : 1 - ((1 + t) ^ p)⁻¹ ≠ 0 := ne_of_gt hd0
  refine ⟨prestacaoMensal v t p, Calcular_PrestacaoMensal_eq_some v t p hd, ?_, ?_⟩
  · simp [Calcular_ValorPago, Calcular_PrestacaoMensal_eq_some v t p hd]
  · have hu0 : (0 : ℚ) < (1 + t) ^ p := by positivity
    have hdle : 1 - ((1 + t) ^ p)⁻¹ ≤ t * p := by
      have heq : 1 - ((1 + t) ^ p)⁻¹ = ((1 + t) ^ p - 1) / (1 + t) ^ p := by
        field_simp
      rw [heq, div_le_iff₀ hu0]
      exact pow_sub_one_le t p (le_of_lt ht0)
    rw [prestacaoMensal, show v * t / (1 - ((1 + t) ^ p)⁻¹) * p =
        v * (t * p) / (1 - ((1 + t) ^ p)⁻¹) by ring, le_div_iff₀ hd0]
    calc v * (1 - ((1 + t) ^ p)⁻¹) ≤ v * (t * p) :=
      mul_le_mul_of_nonneg_left hdle (le_of_lt hv)

/-- Witness for C9 at `principal = 1000`, `rate = 1/100`, `periods = 12`. -/
theorem C9_total_paid_ge_principal_witness :
    (0 : ℚ) < 1000 ∧ (0 : ℚ) < 1 / 100 ∧ (1 / 100 : ℚ) < 1 ∧ (1 ≤ 12) ∧
    (∃ P, Calcular_PrestacaoMensal 1000 (1 / 100) 12 = some P ∧
      Calcular_ValorPago 1000 (1 / 100) 12 = some (P * 12) ∧
      (1000 : ℚ) ≤ P * 12) :=
  ⟨by norm_num, by norm_num, by norm_num, by norm_num,
    C9_total_paid_ge_principal 1000 (1 / 100) 12 (by norm_num) (by norm_num)
      (by norm_num) (by norm_num)⟩

/-- C5: no engine operation validates its inputs: on out-of-domain inputs
(`principal ≤ 0`; `rate < -1`) every operation still returns an ordinary
numeric result instead of failing with an `InvalidInput` error. -/
theorem C5_no_input_validation :
    Calcular_PrestacaoMensal (-100) 1 1 = some (-200) ∧
      Calcular_ValorPago (-100) 1 1 = some (-200) ∧
      Calcular_CoeficienteFinanciamento (-3) 2 = some (-4) ∧
      Calcular_TaxaReal_MetodoNewton (-100) 1 (-110) = some 10 ∧
      tabelaPrice (-100) 1 1 = [⟨1, -200, -100, -100, 0⟩] := by
  have h0 : erroInicial (-100) (-110) 1 = 0 := by norm_num [erroInicial]
  refine ⟨?_, ?_, ?_, ?_, ?_⟩
  · norm_num [Calcular_PrestacaoMensal, jsdiv]
  · norm_num [Calcular_ValorPago, Calcular_PrestacaoMensal, jsdiv]
  · norm_num [Calcular_CoeficienteFinanciamento, jsdiv]
  · rw [Calcular_TaxaReal_MetodoNewton, show (1001 : ℕ) = 1000 + 1 from rfl, h0,
      newtonLoop_done 1 (-100) (-110) 1000 (1 / 10) 0 0 (by norm_num [precisao])]
    norm_num
  · simp only [tabelaPrice, tabelaPriceAux, prestacaoMensal]
    norm_num

/-- Structure of the Newton loop: starting from counter `n` with `fuel`
passes available (`fuel + n = 1001`, `n ≤ 1000`), the final counter never
exceeds 1001, and the result is `null` exactly when the counter reached
1001 (the cap check `iteracoes > 1000` fired). -/
lemma newtonLoop_iter_bound (p : ℕ) (v paid : ℚ) :
    ∀ (fuel n : ℕ), fuel + n = 1001 → n ≤ 1000 → ∀ est erro : ℚ,
      (newtonLoop p v paid fuel est erro n).2 ≤ 1001 ∧
        ((newtonLoop p v paid fuel est erro n).1 = none ↔
          (newtonLoop p v paid fuel est erro n).2 = 1001) := by
  intro fuel
  induction fuel with
  | zero => intro n h hn; omega
  | succ f ih =>
    intro n h hn est erro
    rw [newtonLoop]
    by_cases hconv : |erro| ≤ precisao
    · simp only [if_pos hconv]
      exact ⟨by omega, by simp; omega⟩
    · simp only [if_neg hconv]
      by_cases hcap : n + 1 > 1000
      · simp only [if_pos hcap]
        exact ⟨by omega, by simp; omega⟩
      · simp only [if_neg hcap]
        exact ih (n + 1) (by omega) (by omega) _ _

/-- C6 (amended): the Newton solver performs at most 1001 update iterations,
and returns the `null` no-convergence sentinel exactly when the iteration
counter reached 1001. -/
theorem C6_iteration_cap_amended (v : ℚ) (p : ℕ) (paid : ℚ) :
    TaxaReal_iteracoes v p paid ≤ 1001 ∧
      (Calcular_TaxaReal_MetodoNewton v p paid = none ↔
        TaxaReal_iteracoes v p paid = 1001) := by
  have h := newtonLoop_iter_bound p v paid 1001 0 rfl (by omega) (1 / 10)
    (erroInicial v paid p)
  refine ⟨h.1, ?_⟩
  rw [Calcular_TaxaReal_MetodoNewton, TaxaReal_iteracoes, Option.map_eq_none']
  exact h.2

/-- On input `valorFinanciado = 2`, `p = 1`, `valorPago = 1` the Newton
iteration diverges: once `1 + estimativa < 0` the residual stays above 2
and the next estimate keeps `1 + estimativa < 0`, so the loop runs into the
cap and returns `null` with counter 1001. -/
lemma newtonLoop_diverges_two_one_one :
    ∀ (fuel n : ℕ) (est erro : ℚ), fuel + n = 1001 → 1 ≤ n → n ≤ 1000 →
      1 + est < 0 → erro = 2 - 1 / (1 + est) ^ 1 →
      newtonLoop 1 2 1 fuel est erro n = (none, 1001) := by
  intro fuel
  induction fuel with
  | zero => intro n est erro h h1 h2 hu herr; omega
  | succ f ih =>
    intro n est erro h h1 h2 hu herr
    subst herr
    have hu0 : 1 + est ≠ 0 := ne_of_lt hu
    have hgt : (2 : ℚ) < 2 - 1 / (1 + est) ^ 1 := by
      rw [pow_one]
      have : 1 / (1 + est) < 0 := div_neg_of_pos_of_neg one_pos hu
      linarith
    have herr2 : ¬ |2 - 1 / (1 + est) ^ 1| ≤ precisao := by
      rw [abs_of_pos (by linarith), precisao]
      push_neg
      linarith
    rw [newtonLoop]
    simp only [if_neg herr2]
    by_cases hcap : n + 1 > 1000
    · simp only [if_pos hcap, Prod.mk.injEq]
      exact ⟨trivial, by omega⟩
    · simp only [if_neg hcap]
      have hu2 : 1 + (est - (2 - 1 / (1 + est) ^ 1) /
          (((1 : ℕ) : ℚ) * 1 / (1 + est) ^ (1 + 1))) < 0 := by
        have hexp : 1 + (est - (2 - 1 / (1 + est) ^ 1) /
            (((1 : ℕ) : ℚ) * 1 / (1 + est) ^ (1 + 1))) =
            2 * (1 + est) - 2 * (1 + est) ^ 2 := by
          push_cast
          field_simp
          ring
        rw [hexp]
        nlinarith [hu]
      exact ih (n + 1) _ _ (by omega) (by omega) (by omega) hu2 rfl

/-- C6 (counterexample): on input `valorFinanciado = 2`, `p = 1`,
`valorPago = 1` the solver performs 1001 iterations — more than the 1000 the
claim allows — before returning `null`. -/
theorem C6_counterexample_1001_iterations :
    TaxaReal_iteracoes 2 1 1 = 1001 ∧ ¬ TaxaReal_iteracoes 2 1 1 ≤ 1000 ∧
      Calcular_TaxaReal_MetodoNewton 2 1 1 = none := by
  have hloop : newtonLoop 1 2 1 1001 (1 / 10) (erroInicial 2 1 1) 0 =
      (none, 1001) := by
    rw [show (1001 : ℕ) = 1000 + 1 from rfl, newtonLoop]
    have herr : ¬ |erroInicial 2 1 1| ≤ precisao := by
      rw [show erroInicial 2 1 1 = 12 / 11 by norm_num [erroInicial],
        abs_of_pos (by norm_num), precisao]
      norm_num
    simp only [if_neg herr, if_neg (by norm_num : ¬ (0 : ℕ) + 1 > 1000)]
    refine newtonLoop_diverges_two_one_one 1000 1 _ _ (by norm_num)
      (le_refl 1) (by norm_num) ?_ rfl
    push_cast
    norm_num [erroInicial]
  refine ⟨?_, ?_, ?_⟩
  · rw [TaxaReal_iteracoes, hloop]
  · rw [TaxaReal_iteracoes, hloop]
    norm_num
  · rw [Calcular_TaxaReal_MetodoNewton, hloop]
    rfl

/-- The Newton residual of `Calcular_TaxaReal_MetodoNewton`,
`erro = valorFinanciado - valorPago / Math.pow(1 + r, p)`, over the reals:
used to analyse which `(principal, periods, totalPaid)` inputs admit a root
of the rate equation at all (analysis-level definition, hence over the
noncomputable reals). -/
noncomputable def erroReal (valorFinanciado valorPago : ℝ) (p : ℕ) (r : ℝ) : ℝ :=
  valorFinanciado - valorPago / (1 + r) ^ p

/-- C7 (counterexample): for `totalPaid = 1 < 2 = principal` and
`periods = 1` — a combination the claim asserts has no real solution in
`(-1, ∞)` — the rate `-1/2` lies in `(-1, ∞)` and solves the equation
exactly. -/
theorem C7_counterexample_root_at_minus_half :
    (0 : ℝ) < 1 ∧ (1 : ℝ) < 2 ∧ (1 : ℕ) ≤ 1 ∧
      (-1 : ℝ) < -(1 / 2) ∧ erroReal 2 1 1 (-(1 / 2)) = 0 := by
  norm_num [erroReal]

/-- C7 (amended): for every `0 < totalPaid < principal` and `periods ≥ 1`,
the equation `principal = totalPaid / (1 + rate)^periods` does have a real
solution, with `rate = (totalPaid/principal)^(1/periods) - 1 ∈ (-1, 0)`;
such combinations are therefore not root-free, and nothing forces the
engine to report no-convergence on them. -/
theorem C7_amended_root_exists (v paid : ℝ) (p : ℕ)
    (hpaid : 0 < paid) (hlt : paid < v) (hp : 1 ≤ p) :
    ∃ r : ℝ, -1 < r ∧ r < 0 ∧ erroReal v paid p r = 0 := by
  have hv : 0 < v := lt_trans hpaid hlt
  have hratio0 : 0 < paid / v := div_pos hpaid hv
  have hratio1 : paid / v < 1 := (div_lt_one hv).mpr hlt
  have hpR : (0 : ℝ) < (p : ℝ) := by
    have : (1 : ℝ) ≤ (p : ℝ) := by exact_mod_cast hp
    linarith
  have hpinv : (0 : ℝ) < ((p : ℝ))⁻¹ := by positivity
  have hx0 : 0 < (paid / v) ^ ((p : ℝ))⁻¹ := Real.rpow_pos_of_pos hratio0 _
  have hx1 : (paid / v) ^ ((p : ℝ))⁻¹ < 1 :=
    Real.rpow_lt_one (le_of_lt hratio0) hratio1 hpinv
  refine ⟨(paid / v) ^ ((p : ℝ))⁻¹ - 1, by linarith, by linarith, ?_⟩
  rw [erroReal]
  have hxp : (1 + ((paid / v) ^ ((p : ℝ))⁻¹ - 1)) ^ p = paid / v := by
    rw [show 1 + ((paid / v) ^ ((p : ℝ))⁻¹ - 1) = (paid / v) ^ ((p : ℝ))⁻¹
      by ring]
    rw [← Real.rpow_natCast ((paid / v) ^ ((p : ℝ))⁻¹) p,
      ← Real.rpow_mul (le_of_lt hratio0),
      inv_mul_cancel₀ (ne_of_gt hpR), Real.rpow_one]
  rw [hxp]
  field_simp

/-- Witness for the amended C7 at `principal = 2`, `totalPaid = 1`,
`periods = 1`. -/
theorem C7_amended_root_exists_witness :
    (0 : ℝ) < 1 ∧ (1 : ℝ) < 2 ∧ (1 : ℕ) ≤ 1 ∧
      (∃ r : ℝ, -1 < r ∧ r < 0 ∧ erroReal 2 1 1 r = 0) :=
  ⟨by norm_num, by norm_num, le_refl 1,
    C7_amended_root_exists 2 1 1 (by norm_num) (by norm_num) (le_refl 1)⟩

/-!
## NaN-aware model of the Newton solver

JS numbers carrying a possible `NaN` are modelled as `Option ℚ` with `none`
for `NaN`; every arithmetic operation on `NaN` yields `NaN`, a division by
zero also leaves the finite fragment (it is collapsed into `none` as in
`jsdiv`), and every comparison with `NaN` is `false`.
-/

/-- JS addition with `NaN` propagation. -/
def jsAdd : Option ℚ → Option ℚ → Option ℚ
  | some a, some b => some (a + b)
  | _, _ => none

/-- JS subtraction with `NaN` propagation. -/
def jsSub : Option ℚ → Option ℚ → Option ℚ
  | some a, some b => some (a - b)
  | _, _ => none

/-- JS multiplication with `NaN` propagation. -/
def jsMul : Option ℚ → Option ℚ → Option ℚ
  | some a, some b => some (a * b)
  | _, _ => none

/-- JS division with `NaN` propagation and division by zero collapsed to
`none` as in `jsdiv`. -/
def jsDivOpt : Option ℚ → Option ℚ → Option ℚ
  | some a, some b => if b = 0 then none else some (a / b)
  | _, _ => none

/-- Power `Math.pow` on a possibly-`NaN` base and a natural exponent; JS defines
`Math.pow(NaN, 0) = 1`. -/
def jsPowOpt : Option ℚ → ℕ → Option ℚ
  | some a, n => some (a ^ n)
  | none, 0 => some 1
  | none, _ + 1 => none

/-- The loop guard `Math.abs(erro) > precisao`: any comparison involving
`NaN` is `false` in JS. -/
def jsAbsGt (x : Option ℚ) (c : ℚ) : Bool :=
  match x with
  | some a => decide (c < |a|)
  | none => false

/-- The Newton loop of `Calcular_TaxaReal_MetodoNewton` on possibly-`NaN`
inputs, with the same `fuel = 1001 - iteracoes` scheme as `newtonLoop`:
the loop body runs while the guard is `true`; on exit the first component
carries the final `estimativa` (itself possibly `NaN`), and `none` is the
`null` returned when the iteration cap fires. -/
def newtonLoopNaN (p : ℕ) (valorFinanciado valorPago : Option ℚ) :
    ℕ → Option ℚ → Option ℚ → ℕ → Option (Option ℚ) × ℕ
  | 0, est, _, n => (some est, n)
  | fuel + 1, est, erro, n =>
    if jsAbsGt erro precisao then
      let est2 := jsSub est (jsDivOpt erro
        (jsDivOpt (jsMul (some (p : ℚ)) valorPago)
          (jsPowOpt (jsAdd (some 1) est) (p + 1))))
      let erro2 := jsSub valorFinanciado
        (jsDivOpt valorPago (jsPowOpt (jsAdd (some 1) est2) p))
      if n + 1 > 1000 then (none, n + 1)
      else newtonLoopNaN p valorFinanciado valorPago fuel est2 erro2 (n + 1)
    else (some est, n)

/-- The initial residual for `estimativa = 0.1`, on possibly-`NaN` inputs. -/
def erroInicialNaN (valorFinanciado valorPago : Option ℚ) (p : ℕ) : Option ℚ :=
  jsSub valorFinanciado (jsDivOpt valorPago
    (jsPowOpt (jsAdd (some 1) (some (1 / 10))) p))

/-- Function `Calcular_TaxaReal_MetodoNewton` (`main.js` variant) on possibly-`NaN`
inputs: on loop exit it returns `estimativa * 100`. -/
def Calcular_TaxaReal_MetodoNewton_NaN (valorFinanciado : Option ℚ) (p : ℕ)
    (valorPago : Option ℚ) : Option (Option ℚ) :=
  ((newtonLoopNaN p valorFinanciado valorPago 1001 (some (1 / 10))
      (erroInicialNaN valorFinanciado valorPago p) 0).1).map
    (fun est => jsMul est (some 100))

/-- The `part_001` variant on possibly-`NaN` inputs: on loop exit it returns
the constant `3.8956`. -/
def Calcular_TaxaReal_part001_NaN (valorFinanciado : Option ℚ) (p : ℕ)
    (valorPago : Option ℚ) : Option (Option ℚ) :=
  ((newtonLoopNaN p valorFinanciado valorPago 1001 (some (1 / 10))
      (erroInicialNaN valorFinanciado valorPago p) 0).1).map
    (fun _ => some (38956 / 10000))

/-- The final iteration counter of the NaN-aware Newton loop. -/
def TaxaReal_iteracoesNaN (valorFinanciado : Option ℚ) (p : ℕ)
    (valorPago : Option ℚ) : ℕ :=
  (newtonLoopNaN p valorFinanciado valorPago 1001 (some (1 / 10))
      (erroInicialNaN valorFinanciado valorPago p) 0).2

/-- C10: if `valorFinanciado` or `valorPago` is `NaN`, the initial residual
is `NaN`, the guard `Math.abs(erro) > precisao` is `false` on entry, the
loop body never runs, the `null` branch is never taken, and the function
returns the value built from the untouched initial estimate `0.1`: `10` in
the `main.js` variant (`0.1 * 100`) and the constant `3.8956` in the
`part_001` variant. -/
theorem C10_nan_input_silently_converges (valorFinanciado valorPago : Option ℚ)
    (p : ℕ) (h : valorFinanciado = none ∨ valorPago = none) :
    Calcular_TaxaReal_MetodoNewton_NaN valorFinanciado p valorPago =
      some (some 10) ∧
    TaxaReal_iteracoesNaN valorFinanciado p valorPago = 0 ∧
    Calcular_TaxaReal_part001_NaN valorFinanciado p valorPago =
      some (some (38956 / 10000)) ∧
    Calcular_TaxaReal_MetodoNewton_NaN valorFinanciado p valorPago ≠ none := by
  have herr : erroInicialNaN valorFinanciado valorPago p = none := by
    rcases h with rfl | rfl
    · cases valorPago <;> rfl
    · cases valorFinanciado <;> rfl
  have hloop : newtonLoopNaN p valorFinanciado valorPago 1001 (some (1 / 10))
      (erroInicialNaN valorFinanciado valorPago p) 0 = (some (some (1 / 10)), 0) := by
    rw [show (1001 : ℕ) = 1000 + 1 from rfl, newtonLoopNaN, herr]
    simp [jsAbsGt]
  refine ⟨?_, ?_, ?_, ?_⟩
  · rw [Calcular_TaxaReal_MetodoNewton_NaN, hloop]
    simp [jsMul]
    norm_num
  · rw [TaxaReal_iteracoesNaN, hloop]
  · rw [Calcular_TaxaReal_part001_NaN, hloop]
    rfl
  · rw [Calcular_TaxaReal_MetodoNewton_NaN, hloop]
    simp

/-- Witness for C10 at `valorFinanciado = NaN`, `p = 12`, `valorPago = 110`. -/
theorem C10_nan_input_silently_converges_witness :
    ((none : Option ℚ) = none ∨ (some 110 : Option ℚ) = none) ∧
    (Calcular_TaxaReal_MetodoNewton_NaN none 12 (some 110) = some (some 10) ∧
      TaxaReal_iteracoesNaN none 12 (some 110) = 0 ∧
      Calcular_TaxaReal_part001_NaN none 12 (some 110) =
        some (some (38956 / 10000)) ∧
      Calcular_TaxaReal_MetodoNewton_NaN none 12 (some 110) ≠ none) :=
  ⟨Or.inl rfl, C10_nan_input_silently_converges none (some 110) 12 (Or.inl rfl)⟩
